import Mathlib

/-!
Verification development for the trace-backend device-tracking server.

The definitions below are a shallow embedding of the Python source:

* `app/services/geofence_service.py` — haversine distance, ray-casting
  point-in-polygon, per-zone containment check, and the geofence sweep
  with alert deduplication (`check_all_geofences`).
* `app/api/routes/agent.py` — agent registration (`register_agent`),
  the ping handler (`agent_ping`, including the command drain and the
  legacy lock/wipe pseudo-command merge) and command result reporting
  (`report_command_result`).
* `app/api/routes/commands.py` — command cancellation (`cancel_command`).
* `app/schemas/geofence.py` — creation-time validation of geofence
  definitions (`validate_geofence_data` and the pydantic field bounds).

Conventions of the embedding:

* Database rows are Lean structures; each table is a `List` field of `DB`.
  Row ids (UUIDs in the source) are `Nat`, timestamps are `Nat`.
* Coordinates are a linear ordered field `α`.  The transcendental
  functions used by the haversine formula come from Python's `math`
  module, an external library; they are passed in as a `MathFns α`
  record.  `realMath` instantiates it with the genuine real functions,
  so `haversine_distance realMath` is the exact mathematical formula of
  the source; witnesses use a computable test instantiation over `ℚ`.
* SQLAlchemy sessions commit explicitly.  `agent_ping` takes a
  `PingFailure` argument that injects an exception at one of the points
  where the handler can fail; the returned `DB` is the committed state
  after the request, i.e. the state rolled back to the last commit when
  the injected exception aborts the transaction.
* Fallible handlers return `Except ApiError`; `ApiError` collects the
  HTTP error classes raised by the source (404, 403, 400, 500).
* Python truthiness tests (`if device.department:`, `x or y`,
  `all([...])`) are modelled by explicit `truthy_*` / `py_or_*` helpers.
-/

namespace Trace

/-- Enumeration of device lifecycle states (`app/models/device.py`). -/
inductive DeviceStatus
  | online
  | offline
  | locked
  | wiped
deriving DecidableEq, Repr

/-- Enumeration of remote command types (`app/models/command.py`). -/
inductive CommandType
  | lock
  | unlock
  | restart
  | shutdown
  | screenshot
  | message
  | execute
deriving DecidableEq, Repr

/-- Enumeration of remote command lifecycle states (`app/models/command.py`). -/
inductive CommandStatus
  | pending
  | sent
  | executed
  | failed
  | cancelled
deriving DecidableEq, Repr

/-- Enumeration of geofence shapes (`app/models/geofence.py`). -/
inductive GeofenceType
  | circle
  | polygon
deriving DecidableEq, Repr

/-- Enumeration of alert types (`app/models/alert.py`). -/
inductive AlertType
  | geofence_exit
  | geofence_enter
  | device_offline
  | unauthorized_access
  | agent_tamper
  | lock_requested
  | wipe_requested
deriving DecidableEq, Repr

/-- Enumeration of alert severities (`app/models/alert.py`). -/
inductive AlertSeverity
  | low
  | medium
  | high
  | critical
deriving DecidableEq, Repr

/-- Lowercase wire value of a command type (`CommandType(str, Enum)` values). -/
def CommandType.value : CommandType → String
  | .lock => "lock"
  | .unlock => "unlock"
  | .restart => "restart"
  | .shutdown => "shutdown"
  | .screenshot => "screenshot"
  | .message => "message"
  | .execute => "execute"

/-- Record of the functions the geofence service pulls from Python's `math`
module (an external library): `sin`, `cos`, `asin`, `sqrt` and the constant
`pi` used by `math.radians`. -/
structure MathFns (α : Type) where
  sin : α → α
  cos : α → α
  asin : α → α
  sqrt : α → α
  pi : α

/-- Instantiation of `MathFns` with the genuine real functions. -/
noncomputable def realMath : MathFns ℝ :=
  { sin := Real.sin, cos := Real.cos, asin := Real.arcsin, sqrt := Real.sqrt,
    pi := Real.pi }

variable {α : Type} [LinearOrderedField α]

/-- Degrees to radians, as `math.radians` computes it. -/
def radians (M : MathFns α) (x : α) : α := x * M.pi / 180

/-- Great-circle distance in meters on a sphere of radius 6,371,000 m
(`GeofenceService.haversine_distance`). -/
def haversine_distance (M : MathFns α) (lat1 lon1 lat2 lon2 : α) : α :=
  let lat1r := radians M lat1
  let lon1r := radians M lon1
  let lat2r := radians M lat2
  let lon2r := radians M lon2
  let dlat := lat2r - lat1r
  let dlon := lon2r - lon1r
  let a := M.sin (dlat / 2) ^ 2 + M.cos lat1r * M.cos lat2r * M.sin (dlon / 2) ^ 2
  let c := 2 * M.asin (M.sqrt a)
  c * 6371000

/-- One vertex of a polygon ring (`latitude`/`longitude` keys of the stored
JSON dicts, also `CoordinatePoint` of `app/schemas/geofence.py`). -/
structure Coordinate (α : Type) where
  latitude : α
  longitude : α
deriving DecidableEq, Repr

/-- Pairs `(polygon[i], polygon[j])` where `j` starts at `n - 1` and then
trails `i` by one, exactly the index pattern of the ray-casting loop in
`GeofenceService.point_in_polygon`. -/
def closing_pairs (polygon : List (Coordinate α)) : List (Coordinate α × Coordinate α) :=
  match polygon.getLast? with
  | none => []
  | some last => polygon.zip (last :: polygon)

/-- Ray-casting point-in-polygon test (`GeofenceService.point_in_polygon`).
Within each step, `xi`/`yi` are the longitude/latitude of `polygon[i]` and
`xj`/`yj` those of `polygon[j]`.  When the parity guard is false the Python
code short-circuits before dividing; here the division is total on `α`, and
its junk value is discarded because the conjunction is already false. -/
def point_in_polygon (lat lon : α) (polygon : List (Coordinate α)) : Bool :=
  (closing_pairs polygon).foldl
    (fun inside pq =>
      let xi := pq.1.longitude
      let yi := pq.1.latitude
      let xj := pq.2.longitude
      let yj := pq.2.latitude
      if (decide (yi > lat) != decide (yj > lat)) &&
          decide (lon < (xj - xi) * (lat - yi) / (yj - yi) + xi) then
        !inside
      else inside)
    false

/-- Row of the `geofences` table (`app/models/geofence.py`).  The circle
columns are nullable, as in the schema. -/
structure Geofence (α : Type) where
  id : Nat
  name : String
  fence_type : GeofenceType
  center_latitude : Option α
  center_longitude : Option α
  radius_meters : Option α
  polygon_coordinates : List (Coordinate α)
  is_active : Bool
  alert_on_exit : Bool
  alert_on_enter : Bool
  department : Option String
deriving DecidableEq, Repr

/-- Containment check for one zone
(`GeofenceService.check_point_in_geofence`), returning
`(is_inside, distance_from_center?)`.  A circle whose nullable center or
radius column is missing would raise a `TypeError` in the source; that
branch is modelled as `(false, none)` and is unreachable for zones that
passed creation-time validation.  An empty polygon ring returns
`(false, none)` exactly as the source's `if not geofence.polygon_coordinates`
guard does. -/
def check_point_in_geofence (M : MathFns α) (g : Geofence α) (lat lon : α) :
    Bool × Option α :=
  match g.fence_type with
  | GeofenceType.circle =>
    match g.center_latitude, g.center_longitude, g.radius_meters with
    | some clat, some clon, some r =>
      let distance := haversine_distance M lat lon clat clon
      (decide (distance ≤ r), some distance)
    | _, _, _ => (false, none)
  | GeofenceType.polygon =>
    if g.polygon_coordinates.isEmpty then (false, none)
    else (point_in_polygon lat lon g.polygon_coordinates, none)

/-- Row of the `devices` table (`app/models/device.py`), restricted to the
columns the embedded handlers read or write. -/
structure Device (α : Type) where
  id : Nat
  serial_number : String
  asset_id : String
  device_name : Option String
  manufacturer : Option String
  model : Option String
  os_name : Option String
  os_version : Option String
  mac_address : Option String
  agent_version : Option String
  employee_name : Option String
  department : Option String
  status : DeviceStatus
  is_registered : Bool
  agent_installed : Bool
  last_latitude : Option α
  last_longitude : Option α
  last_location_accuracy : Option α
  last_location_source : Option String
  last_ip_address : Option String
  network_name : Option String
  last_seen : Option Nat
  is_locked : Bool
  lock_reason : Option String
  is_wiped : Bool
  agent_token_hash : Option String
  registered_at : Option Nat
deriving DecidableEq, Repr

/-- Row of the `location_history` table (`app/models/location.py`), as
filled in by the ping handler. -/
structure LocationHistory (α : Type) where
  device_id : Nat
  latitude : α
  longitude : α
  accuracy : Option α
  altitude : Option α
  source : String
  ip_address : Option String
  network_name : Option String
  battery_level : Option α
  is_charging : Option String
deriving DecidableEq, Repr

/-- Row of the `alerts` table (`app/models/alert.py`), restricted to the
columns the geofence evaluator reads or writes. -/
structure Alert (α : Type) where
  device_id : Nat
  alert_type : AlertType
  severity : AlertSeverity
  title : String
  message : String
  latitude : Option α
  longitude : Option α
  geofence_id : Option Nat
  is_resolved : Bool
deriving DecidableEq, Repr

/-- Row of the `remote_commands` table (`app/models/command.py`). -/
structure RemoteCommand where
  id : Nat
  device_id : Nat
  command_type : CommandType
  status : CommandStatus
  payload : Option String
  message : Option String
  result : Option String
  error_message : Option String
  screenshot_data : Option String
  created_at : Nat
  sent_at : Option Nat
  executed_at : Option Nat
deriving DecidableEq, Repr

/-- State of the relational store: one list per table. -/
structure DB (α : Type) where
  devices : List (Device α)
  geofences : List (Geofence α)
  location_history : List (LocationHistory α)
  alerts : List (Alert α)
  commands : List RemoteCommand
deriving DecidableEq, Repr

/-- HTTP error classes raised by the embedded handlers: 404, 403, 400 and
an injected internal failure. -/
inductive ApiError
  | not_found
  | forbidden
  | bad_request
  | internal
deriving DecidableEq, Repr

/-- Python truthiness of an optional string (`None` and `""` are falsy). -/
def truthy_str : Option String → Bool
  | none => false
  | some s => !s.isEmpty

/-- Python truthiness of an optional number (`None` and `0` are falsy). -/
def truthy_num (o : Option α) : Bool :=
  match o with
  | none => false
  | some v => decide (v ≠ 0)

/-- Python `x or d` for an optional string `x` and a string default. -/
def py_or_str (o : Option String) (d : String) : String :=
  match o with
  | none => d
  | some s => if s.isEmpty then d else s

/-- Python `x or d` for a required string `x` and a string default. -/
def py_or_plain (s d : String) : String :=
  if s.isEmpty then d else s

/-- Python `x or d` for two optional strings. -/
def py_or_opt (o d : Option String) : Option String :=
  match o with
  | none => d
  | some s => if s.isEmpty then d else some s

/-- Zone selection of `check_all_geofences`: all zones with
`is_active == True`, and additionally filtered to
`department IS NULL OR department == device.department` only when the
device's department is truthy. -/
def geofence_zone_query (db : DB α) (device : Device α) : List (Geofence α) :=
  let active := db.geofences.filter (fun g => g.is_active)
  if truthy_str device.department then
    active.filter (fun g =>
      decide (g.department = none) || decide (g.department = device.department))
  else active

/-- Dedup query of `check_all_geofences`: does an unresolved alert for
`(device, geofence, alert_type)` already exist? -/
def has_unresolved_alert (db : DB α) (deviceId gid : Nat) (ty : AlertType) : Bool :=
  db.alerts.any (fun a =>
    decide (a.device_id = deviceId ∧ a.geofence_id = some gid ∧
      a.alert_type = ty ∧ a.is_resolved = false))

/-- Alert inserted by `check_all_geofences` for an exit violation
(severity HIGH). -/
def exit_alert (device : Device α) (g : Geofence α) (lat lon : α) : Alert α :=
  { device_id := device.id
    alert_type := AlertType.geofence_exit
    severity := AlertSeverity.high
    title := "Device left geofence: " ++ g.name
    message := "Device " ++ device.asset_id ++ " has left the allowed zone " ++ g.name
    latitude := some lat
    longitude := some lon
    geofence_id := some g.id
    is_resolved := false }

/-- Alert inserted by `check_all_geofences` for an entry event
(severity MEDIUM). -/
def enter_alert (device : Device α) (g : Geofence α) (lat lon : α) : Alert α :=
  { device_id := device.id
    alert_type := AlertType.geofence_enter
    severity := AlertSeverity.medium
    title := "Device entered geofence: " ++ g.name
    message := "Device " ++ device.asset_id ++ " has entered zone " ++ g.name
    latitude := some lat
    longitude := some lon
    geofence_id := some g.id
    is_resolved := false }

/-- Alerts one iteration of the `check_all_geofences` loop produces for a
single zone: an exit alert when configured, the point is outside and no
unresolved exit alert for the tuple exists, then likewise an entry alert. -/
def zone_alerts (M : MathFns α) (db : DB α) (device : Device α) (lat lon : α)
    (g : Geofence α) : List (Alert α) :=
  let inside := (check_point_in_geofence M g lat lon).1
  (if g.alert_on_exit && !inside &&
      !(has_unresolved_alert db device.id g.id AlertType.geofence_exit) then
    [exit_alert device g lat lon]
  else []) ++
  (if g.alert_on_enter && inside &&
      !(has_unresolved_alert db device.id g.id AlertType.geofence_enter) then
    [enter_alert device g lat lon]
  else [])

/-- Geofence sweep of one location ingestion
(`GeofenceService.check_all_geofences`): evaluates every selected zone in
order and returns the list of newly created alerts.  The caller appends
them to the `alerts` table. -/
def check_all_geofences (M : MathFns α) (db : DB α) (device : Device α)
    (lat lon : α) : List (Alert α) :=
  (geofence_zone_query db device).flatMap (fun g => zone_alerts M db device lat lon g)

/-- Replacement of a device row by id, the effect of mutating a loaded
SQLAlchemy `Device` object and committing. -/
def update_device (db : DB α) (d : Device α) : DB α :=
  { db with devices := db.devices.map (fun x => if x.id = d.id then d else x) }

/-- Item of the `commands` array in the ping response
(`CommandInfo` of `app/schemas/device.py`).  The source carries an
arbitrary JSON payload dict assembled from `json.loads(command.payload)`
plus the command's `message`; no claim depends on the JSON part, so only
the `message` entry of the payload is modelled (`payload_message = none`
models an absent/empty payload dict). -/
structure CommandInfo where
  id : Option Nat
  type : String
  payload_message : Option String
deriving DecidableEq, Repr

/-- Ping response body (`DeviceCommandResponse` of `app/schemas/device.py`). -/
structure DeviceCommandResponse where
  command : Option String
  command_id : Option Nat
  message : Option String
  commands : Option (List CommandInfo)
deriving DecidableEq, Repr

/-- Comparison used to model `ORDER BY created_at ASC`. -/
def created_le (c1 c2 : RemoteCommand) : Bool :=
  decide (c1.created_at ≤ c2.created_at)

/-- Selection query of the command drain: the device's PENDING commands
ordered by creation time ascending. -/
def pending_sorted (db : DB α) (deviceId : Nat) : List RemoteCommand :=
  (db.commands.filter (fun c =>
    decide (c.device_id = deviceId ∧ c.status = CommandStatus.pending))).mergeSort
    created_le

/-- Transition of one drained command to SENT with its delivery timestamp. -/
def mark_sent (now : Nat) (c : RemoteCommand) : RemoteCommand :=
  { c with status := CommandStatus.sent, sent_at := some now }

/-- Command-queue drain of the ping handler: select up to `maxBatch`
PENDING commands of the device ordered by creation time ascending, mark
each one SENT with `sent_at = now`, and return the marked batch together
with the updated store (`agent_ping` lines 143–181 of
`app/api/routes/agent.py`). -/
def drain_pending (db : DB α) (deviceId maxBatch now : Nat) :
    List RemoteCommand × DB α :=
  let selected := (pending_sorted db deviceId).take maxBatch
  let ids := selected.map (fun c => c.id)
  let newCommands := db.commands.map (fun c =>
    if ids.contains c.id then mark_sent now c else c)
  (selected.map (mark_sent now), { db with commands := newCommands })

/-- Response item built from a drained command. -/
def command_info_of (c : RemoteCommand) : CommandInfo :=
  { id := some c.id, type := c.command_type.value, payload_message := c.message }

/-- Synthetic WIPE pseudo-command of the legacy flag channel. -/
def wipe_command_info : CommandInfo :=
  { id := none, type := "wipe", payload_message := some "Remote wipe requested" }

/-- Synthetic LOCK pseudo-command of the legacy flag channel. -/
def lock_command_info (device : Device α) : CommandInfo :=
  { id := none, type := "lock",
    payload_message := some (py_or_str device.lock_reason "Device lock requested") }

/-- Legacy lock/wipe merge of the ping handler (`agent_ping` lines
183–187): a wiped device always gets a WIPE pseudo-command appended;
otherwise a locked device gets a LOCK pseudo-command appended when none
of the listed commands already has type `lock`. -/
def merge_legacy_commands (device : Device α) (commands_list : List CommandInfo) :
    List CommandInfo :=
  if device.is_wiped then
    commands_list ++ [wipe_command_info]
  else if device.is_locked && !(commands_list.any (fun c => c.type == "lock")) then
    commands_list ++ [lock_command_info device]
  else commands_list

/-- Ping payload (`DeviceAgentPing` of `app/schemas/device.py`). -/
structure DeviceAgentPing (α : Type) where
  latitude : Option α
  longitude : Option α
  accuracy : Option α
  altitude : Option α
  location_source : String
  ip_address : Option String
  network_name : Option String
  battery_level : Option α
  is_charging : Option Bool
  agent_version : String
deriving DecidableEq, Repr

/-- Injection point of an exception into the ping handler:
`before_first_commit` aborts during steps 3–4 (status, location, geofence
evaluation), before any commit has run; `during_drain` aborts during the
command drain, after the first commit. -/
inductive PingFailure
  | nofail
  | before_first_commit
  | during_drain
deriving DecidableEq, Repr

/-- Status/metadata update of the ping handler (step 3 of the protocol):
status ONLINE, refreshed last-seen, agent version and the truthiness-guarded
network fields. -/
def ping_status_update (device : Device α) (ping : DeviceAgentPing α) (now : Nat) :
    Device α :=
  { device with
    status := DeviceStatus.online
    last_seen := some now
    agent_version := some ping.agent_version
    last_ip_address :=
      if truthy_str ping.ip_address then ping.ip_address else device.last_ip_address
    network_name :=
      if truthy_str ping.network_name then ping.network_name else device.network_name }

/-- Cached last-known-coordinate update of the ping handler (step 4). -/
def ping_location_update (device : Device α) (ping : DeviceAgentPing α) : Device α :=
  { device with
    last_latitude := ping.latitude
    last_longitude := ping.longitude
    last_location_accuracy := ping.accuracy
    last_location_source := some ping.location_source }

/-- LocationHistory row the ping handler inserts for a coordinate-bearing
ping. -/
def ping_location_sample (device : Device α) (ping : DeviceAgentPing α)
    (lat lon : α) : LocationHistory α :=
  { device_id := device.id
    latitude := lat
    longitude := lon
    accuracy := ping.accuracy
    altitude := ping.altitude
    source := ping.location_source
    ip_address := ping.ip_address
    network_name := ping.network_name
    battery_level := ping.battery_level
    is_charging := ping.is_charging.map (fun b => if b then "True" else "False") }

/-- Response assembly of the ping handler (`agent_ping` lines 189–198):
the merged batch, plus the legacy single-command fields taken from its
first element. -/
def ping_build_response (merged : List CommandInfo) : DeviceCommandResponse :=
  match merged with
  | [] => { command := none, command_id := none, message := none, commands := none }
  | c :: rest =>
    { command := some c.type
      command_id := c.id
      message := c.payload_message
      commands := some (c :: rest) }

/-- Ping handler (`agent_ping` of `app/api/routes/agent.py`).  Returns the
response (or error) together with the committed store.  The handler
commits once after steps 3–4 and again after marking drained commands
SENT, so an exception injected `before_first_commit` rolls the whole ping
back to `db`, while one injected `during_drain` rolls back only to the
state committed after steps 3–4. -/
def agent_ping (M : MathFns α) (db : DB α) (device_id : Nat)
    (ping : DeviceAgentPing α) (now : Nat) (fail : PingFailure) :
    Except ApiError DeviceCommandResponse × DB α :=
  match db.devices.find? (fun d => decide (d.id = device_id)) with
  | none => (Except.error ApiError.not_found, db)
  | some device =>
    let device1 := ping_status_update device ping now
    let ph : DB α × Device α :=
      match ping.latitude, ping.longitude with
      | some lat, some lon =>
        let device2 := ping_location_update device1 ping
        let alerts := check_all_geofences M db device2 lat lon
        ({ update_device db device2 with
            location_history := db.location_history ++ [ping_location_sample device ping lat lon]
            alerts := db.alerts ++ alerts }, device2)
      | _, _ => (update_device db device1, device1)
    match fail with
    | PingFailure.before_first_commit => (Except.error ApiError.internal, db)
    | PingFailure.during_drain => (Except.error ApiError.internal, ph.1)
    | PingFailure.nofail =>
      let dr := drain_pending ph.1 device.id 5 now
      let merged := merge_legacy_commands ph.2 (dr.1.map command_info_of)
      (Except.ok (ping_build_response merged), dr.2)

/-- Registration request body (`DeviceRegister` of `app/schemas/device.py`). -/
structure DeviceRegister where
  serial_number : String
  asset_id : String
  device_name : Option String
  manufacturer : Option String
  model : Option String
  os_name : Option String
  os_version : Option String
  mac_address : Option String
  agent_version : String
deriving DecidableEq, Repr

/-- Registration response body. -/
structure DeviceRegistrationResponse where
  device_id : Nat
  agent_token : String
deriving DecidableEq, Repr

/-- Modelled abstraction of `create_agent_token` of `app/core/security.py`:
the source builds a signed JWT for the device with a long expiry; the
token's only properties used here are that it is a value determined by the
device id and issue time. -/
def create_agent_token (deviceId now : Nat) : String :=
  "agent." ++ toString deviceId ++ "." ++ toString now

/-- Modelled abstraction of `get_password_hash` of `app/core/security.py`
(bcrypt, an external library): an injective fingerprint of the input. -/
def get_password_hash (s : String) : String :=
  "hash." ++ s

/-- Device row auto-created by `register_agent` when no device with the
serial number exists. -/
def auto_device (reg : DeviceRegister) (newId : Nat) : Device α :=
  { id := newId
    serial_number := reg.serial_number
    asset_id := py_or_plain reg.asset_id ("AUTO-" ++ reg.serial_number)
    device_name := some (py_or_str reg.device_name ("Device-" ++ reg.serial_number))
    manufacturer := none
    model := none
    os_name := none
    os_version := none
    mac_address := none
    agent_version := none
    employee_name := none
    department := none
    status := DeviceStatus.offline
    is_registered := false
    agent_installed := false
    last_latitude := none
    last_longitude := none
    last_location_accuracy := none
    last_location_source := none
    last_ip_address := none
    network_name := none
    last_seen := none
    is_locked := false
    lock_reason := none
    is_wiped := false
    agent_token_hash := none
    registered_at := none }

/-- Field update `register_agent` applies to the (found or auto-created)
device on a successful registration: refreshed metadata, both
registration flags set, ONLINE status and the stored token fingerprint. -/
def register_update (device : Device α) (reg : DeviceRegister) (now : Nat) :
    Device α :=
  { device with
    device_name := py_or_opt reg.device_name device.device_name
    manufacturer := py_or_opt reg.manufacturer device.manufacturer
    model := py_or_opt reg.model device.model
    os_name := reg.os_name
    os_version := reg.os_version
    mac_address := reg.mac_address
    agent_version := some reg.agent_version
    agent_installed := true
    is_registered := true
    registered_at := some now
    status := DeviceStatus.online
    last_seen := some now
    agent_token_hash :=
      some (get_password_hash ((create_agent_token device.id now).take 32)) }

/-- Registration handler (`register_agent` of `app/api/routes/agent.py`):
find the device by serial number, auto-create it if absent (with `newId`
as the fresh primary key), refuse with a 400 when both `is_registered`
and `agent_installed` are already set, and otherwise update the record,
set both flags and issue a fresh agent token. -/
def register_agent (db : DB α) (reg : DeviceRegister) (now newId : Nat) :
    Except ApiError (DB α × DeviceRegistrationResponse) :=
  match db.devices.find? (fun d => decide (d.serial_number = reg.serial_number)) with
  | some device =>
    if device.is_registered && device.agent_installed then
      Except.error ApiError.bad_request
    else
      let updated := register_update device reg now
      Except.ok
        ({ db with devices := db.devices.map (fun x => if x.id = device.id then updated else x) },
          { device_id := device.id, agent_token := create_agent_token device.id now })
  | none =>
    let device : Device α := auto_device reg newId
    if device.is_registered && device.agent_installed then
      Except.error ApiError.bad_request
    else
      let updated := register_update device reg now
      Except.ok
        ({ db with devices := db.devices ++ [updated] },
          { device_id := device.id, agent_token := create_agent_token device.id now })

/-- Command result report body (`CommandResultData` of
`app/api/routes/agent.py`). -/
structure CommandResultData where
  command_id : Nat
  status : String
  result : Option String
  error_message : Option String
  screenshot_data : Option String
deriving DecidableEq, Repr

/-- Result-reporting handler (`report_command_result` of
`app/api/routes/agent.py`): 404 when the command does not exist, 403 when
it belongs to another device, and otherwise an unconditional transition to
EXECUTED (`status == "executed"`) or FAILED with `executed_at = now` and
the reported result fields stored. -/
def report_command_result (db : DB α) (device_id : Nat) (rd : CommandResultData)
    (now : Nat) : Except ApiError (DB α) :=
  match db.commands.find? (fun c => decide (c.id = rd.command_id)) with
  | none => Except.error ApiError.not_found
  | some command =>
    if command.device_id ≠ device_id then
      Except.error ApiError.forbidden
    else
      let newStatus :=
        if rd.status = "executed" then CommandStatus.executed else CommandStatus.failed
      let updated :=
        { command with
          status := newStatus
          executed_at := some now
          result := rd.result
          error_message := rd.error_message
          screenshot_data := rd.screenshot_data }
      Except.ok
        { db with commands := db.commands.map (fun c => if c.id = command.id then updated else c) }

/-- Cancellation handler (`cancel_command` of `app/api/routes/commands.py`):
404 when the command does not exist, 400 unless it is PENDING, otherwise
a transition to CANCELLED. -/
def cancel_command (db : DB α) (command_id : Nat) : Except ApiError (DB α) :=
  match db.commands.find? (fun c => decide (c.id = command_id)) with
  | none => Except.error ApiError.not_found
  | some command =>
    if command.status ≠ CommandStatus.pending then
      Except.error ApiError.bad_request
    else
      Except.ok
        { db with commands := db.commands.map (fun c =>
            if c.id = command.id then { command with status := CommandStatus.cancelled } else c) }

/-- Geofence creation request (`GeofenceCreate` of `app/schemas/geofence.py`). -/
structure GeofenceCreate (α : Type) where
  name : String
  fence_type : GeofenceType
  is_active : Bool
  alert_on_exit : Bool
  alert_on_enter : Bool
  department : Option String
  center_latitude : Option α
  center_longitude : Option α
  radius_meters : Option α
  polygon_coordinates : Option (List (Coordinate α))
deriving DecidableEq, Repr

/-- Range check of an optional pydantic field with `ge`/`le` bounds. -/
def opt_in_range (o : Option α) (lo hi : α) : Bool :=
  match o with
  | none => true
  | some v => decide (lo ≤ v ∧ v ≤ hi)

/-- Per-field pydantic validation of `GeofenceCreate`: name length 1–255,
center latitude in [-90, 90], center longitude in [-180, 180], radius in
[1, 100000], and every polygon vertex in coordinate range. -/
def geofence_field_bounds (g : GeofenceCreate α) : Bool :=
  decide (1 ≤ g.name.length ∧ g.name.length ≤ 255) &&
  opt_in_range g.center_latitude (-90) 90 &&
  opt_in_range g.center_longitude (-180) 180 &&
  opt_in_range g.radius_meters 1 100000 &&
  (match g.polygon_coordinates with
    | none => true
    | some ps => ps.all (fun p =>
        decide (-90 ≤ p.latitude ∧ p.latitude ≤ 90 ∧
          -180 ≤ p.longitude ∧ p.longitude ≤ 180)))

/-- Model validator `GeofenceCreate.validate_geofence_data`: a circle
requires `all([center_latitude, center_longitude, radius_meters])` —
Python truthiness, so a field that is `None` **or zero** fails the check;
a polygon requires at least 3 vertices. -/
def validate_geofence_data (g : GeofenceCreate α) : Bool :=
  match g.fence_type with
  | GeofenceType.circle =>
    truthy_num g.center_latitude && truthy_num g.center_longitude &&
      truthy_num g.radius_meters
  | GeofenceType.polygon =>
    match g.polygon_coordinates with
    | none => false
    | some ps => decide (3 ≤ ps.length)

/-- Overall acceptance of a geofence creation request: pydantic field
bounds followed by the model validator, both before any persistence. -/
def geofence_create_accepted (g : GeofenceCreate α) : Bool :=
  geofence_field_bounds g && validate_geofence_data g

/-- Number of alerts in a list for a given (device, geofence, type) tuple. -/
def alert_tuple_count (alerts : List (Alert α)) (deviceId gid : Nat)
    (ty : AlertType) : Nat :=
  (alerts.filter (fun a =>
    decide (a.device_id = deviceId ∧ a.geofence_id = some gid ∧ a.alert_type = ty))).length

/-- Number of alerts in a list for a given (device, geofence, type) tuple
carrying a given severity. -/
def alert_tuple_sev_count (alerts : List (Alert α)) (deviceId gid : Nat)
    (ty : AlertType) (sev : AlertSeverity) : Nat :=
  (alerts.filter (fun a =>
    decide (a.device_id = deviceId ∧ a.geofence_id = some gid ∧
      a.alert_type = ty ∧ a.severity = sev))).length

/-! Concrete test data used by witnesses and counterexamples.  The math
record is a computable stand-in for the `math` module; the geometric facts
exercised on it only involve the polygon path, which does not consult it. -/

/-- Computable test instantiation of the math record, used only by
witnesses whose zones are polygons (the circle path is exercised over `ℝ`
with `realMath`). -/
def testMath : MathFns ℚ :=
  { sin := fun _ => 0, cos := fun _ => 0, asin := fun _ => 0,
    sqrt := fun _ => 0, pi := 0 }

/-- Square test ring with vertices (0,0), (0,10), (10,10), (10,0). -/
def square_ring : List (Coordinate ℚ) :=
  [⟨0, 0⟩, ⟨0, 10⟩, ⟨10, 10⟩, ⟨10, 0⟩]

/-- Test device without a department. -/
def sample_device : Device ℚ :=
  { id := 7, serial_number := "SN-1", asset_id := "A-1", device_name := none,
    manufacturer := none, model := none, os_name := none, os_version := none,
    mac_address := none, agent_version := none, employee_name := none,
    department := none, status := DeviceStatus.offline, is_registered := false,
    agent_installed := false, last_latitude := none, last_longitude := none,
    last_location_accuracy := none, last_location_source := none,
    last_ip_address := none, network_name := none, last_seen := none,
    is_locked := false, lock_reason := none, is_wiped := false,
    agent_token_hash := none, registered_at := none }

/-- Test polygon zone scoped to the HR department, alerting on exit. -/
def hr_zone : Geofence ℚ :=
  { id := 1, name := "HR yard", fence_type := GeofenceType.polygon,
    center_latitude := none, center_longitude := none, radius_meters := none,
    polygon_coordinates := square_ring, is_active := true, alert_on_exit := true,
    alert_on_enter := false, department := some "HR" }

/-- Test command in the PENDING state for `sample_device`. -/
def c1_command : RemoteCommand :=
  { id := 1, device_id := 7, command_type := CommandType.restart,
    status := CommandStatus.pending, payload := none, message := none,
    result := none, error_message := none, screenshot_data := none,
    created_at := 5, sent_at := none, executed_at := none }

/-- Test store holding only `c1_command`. -/
def c1_db : DB ℚ :=
  { devices := [], geofences := [], location_history := [], alerts := [],
    commands := [c1_command] }

/-- Result report claiming successful execution of command 1. -/
def c1_rd : CommandResultData :=
  { command_id := 1, status := "executed", result := none,
    error_message := none, screenshot_data := none }

/-- Older pending test command (created at time 3). -/
def c5_cmd_old : RemoteCommand :=
  { c1_command with id := 11, created_at := 3 }

/-- Newer pending test command (created at time 9). -/
def c5_cmd_new : RemoteCommand :=
  { c1_command with id := 12, created_at := 9 }

/-- Test store with two pending commands listed newest-first. -/
def c5_db : DB ℚ :=
  { devices := [], geofences := [], location_history := [], alerts := [],
    commands := [c5_cmd_new, c5_cmd_old] }

/-- Test device with both the lock and the wipe flag set. -/
def c7_device : Device ℚ :=
  { sample_device with is_locked := true, is_wiped := true }

/-- Circle creation request with a center on the equator: all three circle
fields supplied and in range. -/
def c8_create : GeofenceCreate ℚ :=
  { name := "Equator site", fence_type := GeofenceType.circle,
    is_active := true, alert_on_exit := true, alert_on_enter := false,
    department := none, center_latitude := some 0, center_longitude := some 10,
    radius_meters := some 100, polygon_coordinates := none }

/-- Test store holding `sample_device` and the HR-scoped zone. -/
def c4_db : DB ℚ :=
  { devices := [sample_device], geofences := [hr_zone], location_history := [],
    alerts := [], commands := [] }

/-- Test device assigned to the HR department. -/
def c4_hr_device : Device ℚ :=
  { sample_device with
    id := 8
    serial_number := "SN-2"
    asset_id := "A-2"
    department := some "HR" }

/-- Coordinate-bearing test ping. -/
def c2_ping : DeviceAgentPing ℚ :=
  { latitude := some 50, longitude := some 50, accuracy := none, altitude := none,
    location_source := "GPS", ip_address := none, network_name := none,
    battery_level := none, is_charging := none, agent_version := "1.0" }

/-- Test store with one device, no zones and one pending command. -/
def c2_db : DB ℚ :=
  { devices := [sample_device], geofences := [], location_history := [],
    alerts := [], commands := [c1_command] }

/-- Test ping missing its latitude. -/
def c10_ping : DeviceAgentPing ℚ :=
  { c2_ping with latitude := none }

/-- Registration request used by the C9 witness. -/
def c9_reg : DeviceRegister :=
  { serial_number := "SN-9", asset_id := "A-9", device_name := none,
    manufacturer := none, model := none, os_name := none, os_version := none,
    mac_address := none, agent_version := "1.0" }

/-- Empty test store used by the C9 witness. -/
def c9_db : DB ℚ :=
  { devices := [], geofences := [], location_history := [], alerts := [],
    commands := [] }

/-- Real-valued circle zone used by the C6 witness. -/
def c6_zone : Geofence ℝ :=
  { id := 1, name := "HQ", fence_type := GeofenceType.circle,
    center_latitude := some 0, center_longitude := some 0,
    radius_meters := some 100, polygon_coordinates := [], is_active := true,
    alert_on_exit := true, alert_on_enter := false, department := none }

end Trace

namespace Trace

/-- C6: for every circle geofence and every point, the classification is
`distance ≤ radius` for the haversine distance from point to center, that
distance is returned alongside, a point at distance exactly the radius is
inside, and a point strictly beyond the radius is outside. -/
theorem C6_circle_boundary (g : Geofence ℝ) (clat clon r lat lon : ℝ)

    (h1 : g.fence_type = GeofenceType.circle)
    (h2 : g.center_latitude = some clat)
    (h3 : g.center_longitude = some clon)
    (h4 : g.radius_meters = some r) :
    check_point_in_geofence realMath g lat lon =
      (decide (haversine_distance realMath lat lon clat clon ≤ r),
        some (haversine_distance realMath lat lon clat clon)) ∧
    ((check_point_in_geofence realMath g lat lon).1 = true ↔
      haversine_distance realMath lat lon clat clon ≤ r) ∧
    (haversine_distance realMath lat lon clat clon = r →
      (check_point_in_geofence realMath g lat lon).1 = true) ∧
    (r < haversine_distance realMath lat lon clat clon →
      (check_point_in_geofence realMath g lat lon).1 = false) := by
  have he : check_point_in_geofence realMath g lat lon =
      (decide (haversine_distance realMath lat lon clat clon ≤ r),
        some (haversine_distance realMath lat lon clat clon)) := by
    simp only [check_point_in_geofence, h1, h2, h3, h4]
  have hiff : (check_point_in_geofence realMath g lat lon).1 = true ↔
      haversine_distance realMath lat lon clat clon ≤ r := by
    rw [he]
    exact decide_eq_true_iff
  refine ⟨he, hiff, fun h => hiff.mpr (le_of_eq h), fun h => ?_⟩
  rw [he]
  exact decide_eq_false (not_le.mpr h)

/-- Witness for C6 at a concrete circle zone and point. -/
theorem C6_witness :
    check_point_in_geofence realMath c6_zone 3 4 =
      (decide (haversine_distance realMath 3 4 0 0 ≤ 100),
        some (haversine_distance realMath 3 4 0 0)) :=
  (C6_circle_boundary c6_zone 0 0 100 3 4 rfl rfl rfl rfl).1

/-- C7 (amended): the legacy merge appends a WIPE pseudo-command whenever
the wipe flag is set — in which case no LOCK pseudo-command is ever added,
even for a locked device with no lock command in the batch; only when the
wipe flag is clear does a locked device get a LOCK pseudo-command, and
exactly when no command of type `lock` is already represented. -/
theorem C7_legacy_merge {α : Type} (device : Device α) (cl : List CommandInfo) :
    (device.is_wiped = true →
      merge_legacy_commands device cl = cl ++ [wipe_command_info]) ∧
    (device.is_wiped = false → device.is_locked = true →
      cl.any (fun c => c.type == "lock") = false →
      merge_legacy_commands device cl = cl ++ [lock_command_info device]) ∧
    (device.is_wiped = false →
      (device.is_locked = false ∨ cl.any (fun c => c.type == "lock") = true) →
      merge_legacy_commands device cl = cl) := by
  unfold merge_legacy_commands
  refine ⟨fun hw => by simp [hw], fun hw hl hc => by simp [hw, hl, hc], fun hw hocc => by
    rcases hocc with h | h
    · simp [hw, h]
    · simp [hw, h]⟩

/-- Witness for C7 (amended) on a wiped device. -/
theorem C7_witness :
    merge_legacy_commands c7_device [] = [] ++ [wipe_command_info] :=
  (C7_legacy_merge c7_device []).1 rfl

/-- Counterexample to C7 as stated: a device with both `is_locked` and
`is_wiped` set and an empty drained batch receives only the WIPE
pseudo-command — no LOCK pseudo-command appears even though none is
represented in the batch. -/
theorem C7_counterexample :
    c7_device.is_locked = true ∧
    merge_legacy_commands c7_device [] = [wipe_command_info] ∧
    (merge_legacy_commands c7_device []).any (fun c => c.type == "lock") = false :=
  ⟨rfl, rfl, rfl⟩

/-- C8: the geofence creation validator rejects a circle whose center
latitude is exactly 0 even though all three circle fields are supplied and
within the declared pydantic ranges, because `all([...])` tests Python
truthiness and `0.0` is falsy.  The claim (and the spec sentence it
formalizes, which requires only that all three fields be present) calls
such a request accepted, so this is a bug in the code. -/
theorem C8_zero_latitude_rejected :
    c8_create.fence_type = GeofenceType.circle ∧
    c8_create.center_latitude = some 0 ∧
    c8_create.center_longitude = some 10 ∧
    c8_create.radius_meters = some 100 ∧
    geofence_field_bounds c8_create = true ∧
    geofence_create_accepted c8_create = false := by
  refine ⟨rfl, rfl, rfl, rfl, ?_, ?_⟩
  · norm_num [geofence_field_bounds, opt_in_range, c8_create]
    decide
  · norm_num [geofence_create_accepted, geofence_field_bounds,
      validate_geofence_data, opt_in_range, truthy_num, c8_create]

/-- C1 (amended): `cancel` is legal only from PENDING — any other state is
rejected with a 400 client error and the store is unchanged — and
delivery moves PENDING commands to SENT (see `drain_pending`), but
`report_command_result` enforces only existence and ownership: it rejects
a command of another device with 403, yet transitions a command in ANY
current state (PENDING, SENT, EXECUTED, FAILED or CANCELLED) to EXECUTED
or FAILED, stamping `executed_at`. -/
theorem C1_command_lifecycle {α : Type} (db : DB α) (cid : Nat) (c : RemoteCommand)
    (hfind : db.commands.find? (fun x => decide (x.id = cid)) = some c) :
    (c.status ≠ CommandStatus.pending →
      cancel_command db cid = Except.error ApiError.bad_request) ∧
    (c.status = CommandStatus.pending →
      cancel_command db cid = Except.ok
        { db with commands := db.commands.map (fun x =>
            if x.id = c.id then { c with status := CommandStatus.cancelled } else x) }) ∧
    (∀ deviceId rd now, rd.command_id = cid → c.device_id ≠ deviceId →
      report_command_result db deviceId rd now = Except.error ApiError.forbidden) ∧
    (∀ deviceId rd now, rd.command_id = cid → c.device_id = deviceId →
      report_command_result db deviceId rd now = Except.ok
        { db with commands := db.commands.map (fun x =>
            if x.id = c.id then
              { c with
                status := if rd.status = "executed" then CommandStatus.executed
                  else CommandStatus.failed
                executed_at := some now
                result := rd.result
                error_message := rd.error_message
                screenshot_data := rd.screenshot_data }
            else x) }) := by
  refine ⟨fun hs => ?_, fun hs => ?_, fun deviceId rd now hid hdev => ?_,
    fun deviceId rd now hid hdev => ?_⟩
  · unfold cancel_command
    rw [hfind]
    simp [hs]
  · unfold cancel_command
    rw [hfind]
    simp [hs]
  · unfold report_command_result
    subst hid
    rw [hfind]
    simp [hdev]
  · unfold report_command_result
    subst hid
    rw [hfind]
    simp [hdev]

/-- Witness for C1 (amended): cancelling the pending test command succeeds. -/
theorem C1_witness :
    cancel_command c1_db 1 = Except.ok
      { c1_db with commands := [{ c1_command with status := CommandStatus.cancelled }] } :=
  (C1_command_lifecycle c1_db 1 c1_command rfl).2.1 rfl

/-- Counterexample to C1 as stated: reporting a result for a command whose
status is PENDING (not SENT) is not rejected — the handler accepts it and
moves the command straight to EXECUTED. -/
theorem C1_counterexample :
    c1_command.status = CommandStatus.pending ∧
    report_command_result c1_db 7 c1_rd 50 =
      Except.ok { c1_db with commands :=
        [{ c1_command with status := CommandStatus.executed, executed_at := some 50 }] } :=
  ⟨rfl, rfl⟩

/-- Helper: every alert produced for one zone carries the evaluated device's
id and that zone's geofence id. -/
theorem zone_alerts_mem {α : Type} [LinearOrderedField α] (M : MathFns α) (db : DB α)
    (device : Device α) (lat lon : α) (g : Geofence α) (a : Alert α)
    (ha : a ∈ zone_alerts M db device lat lon g) :
    a.device_id = device.id ∧ a.geofence_id = some g.id := by
  unfold zone_alerts at ha
  rcases List.mem_append.mp ha with h | h <;> split at h
  · rw [List.mem_singleton] at h
    subst h
    exact ⟨rfl, rfl⟩
  · cases h
  · rw [List.mem_singleton] at h
    subst h
    exact ⟨rfl, rfl⟩
  · cases h

/-- Helper: when zone ids are distinct, filtering the concatenated alert
output by a predicate that pins the geofence id to one zone `g` sees only
the alerts `g` itself produced. -/
theorem filter_flatMap_zone {α : Type} [LinearOrderedField α]
    (zones : List (Geofence α)) (f : Geofence α → List (Alert α))
    (p : Alert α → Bool) (g : Geofence α)
    (hmem : g ∈ zones)
    (hnd : (zones.map (fun z => z.id)).Nodup)
    (hf : ∀ z ∈ zones, ∀ a ∈ f z, a.geofence_id = some z.id)
    (hp : ∀ a, p a = true → a.geofence_id = some g.id) :
    ((zones.flatMap f).filter p).length = ((f g).filter p).length := by
  induction zones with
  | nil => cases hmem
  | cons z zs ih =>
    rw [List.flatMap_cons, List.filter_append, List.length_append]
    rw [List.map_cons, List.nodup_cons] at hnd
    rcases List.mem_cons.mp hmem with hgz | hgz
    · subst hgz
      have h0 : (zs.flatMap f).filter p = [] := by
        rw [List.filter_eq_nil_iff]
        intro a ha hpa
        rcases List.mem_flatMap.mp ha with ⟨z2, hz2, haz2⟩
        have hgid := hf z2 (List.mem_cons_of_mem _ hz2) a haz2
        have hgid2 := hp a hpa
        rw [hgid] at hgid2
        injection hgid2 with h3
        exact hnd.1 (h3 ▸ List.mem_map_of_mem (fun w => w.id) hz2)
      rw [h0]
      simp
    · have h0 : (f z).filter p = [] := by
        rw [List.filter_eq_nil_iff]
        intro a ha hpa
        have h1 := hf z (List.mem_cons_self _ _) a ha
        have h2 := hp a hpa
        rw [h1] at h2
        injection h2 with h3
        exact hnd.1 (h3 ▸ List.mem_map_of_mem (fun w => w.id) hgz)
      rw [h0]
      simp only [List.length_nil, Nat.zero_add]
      exact ih hgz hnd.2 (fun z2 hz2 => hf z2 (List.mem_cons_of_mem _ hz2))

/-- C4 (amended): when the device has a truthy department, exactly the
active zones whose department is null or equal to the device's are
evaluated, and a zone outside the selection can produce no alert; but when
the device's department is null (or empty), the department filter is
skipped entirely and ALL active zones are evaluated, department-scoped
ones included. -/
theorem C4_zone_selection {α : Type} [LinearOrderedField α] (M : MathFns α)
    (db : DB α) (device : Device α) (lat lon : α) :
    (truthy_str device.department = true →
      ∀ z : Geofence α, (z ∈ geofence_zone_query db device ↔
        z ∈ db.geofences ∧ z.is_active = true ∧
          (z.department = none ∨ z.department = device.department))) ∧
    (truthy_str device.department = false →
      ∀ z : Geofence α, (z ∈ geofence_zone_query db device ↔
        z ∈ db.geofences ∧ z.is_active = true)) ∧
    (∀ z : Geofence α, (∀ g ∈ geofence_zone_query db device, g.id ≠ z.id) →
      ∀ ty : AlertType,
        alert_tuple_count (check_all_geofences M db device lat lon) device.id z.id ty = 0) := by
  refine ⟨fun hdep z => ?_, fun hdep z => ?_, fun z hz ty => ?_⟩
  · simp only [geofence_zone_query, hdep, if_true, List.mem_filter,
      Bool.or_eq_true, decide_eq_true_eq]
    tauto
  · simp only [geofence_zone_query, hdep, if_false, Bool.false_eq_true,
      List.mem_filter]
  · unfold alert_tuple_count check_all_geofences
    rw [List.length_eq_zero, List.filter_eq_nil_iff]
    intro a ha hpa
    rcases List.mem_flatMap.mp ha with ⟨g2, hg2, hag2⟩
    have h1 := (zone_alerts_mem M db device lat lon g2 a hag2).2
    have h2 : a.geofence_id = some z.id := (of_decide_eq_true hpa).2.1
    rw [h1] at h2
    injection h2 with h3
    exact hz g2 hg2 h3

/-- Witness for C4 (amended): the department-scoped test zone is selected
for a device of the same department. -/
theorem C4_witness :
    hr_zone ∈ geofence_zone_query c4_db c4_hr_device ↔
      hr_zone ∈ c4_db.geofences ∧ hr_zone.is_active = true ∧
        (hr_zone.department = none ∨ hr_zone.department = c4_hr_device.department) :=
  (C4_zone_selection testMath c4_db c4_hr_device 50 50).1 (by decide) hr_zone

/-- Counterexample to C4 as stated: for a device with no department at
all, a zone whose department is set (and so differs from the device's) IS
selected for evaluation and DOES produce an alert. -/
theorem C4_counterexample :
    sample_device.department = none ∧
    hr_zone.department = some "HR" ∧
    hr_zone ∈ geofence_zone_query c4_db sample_device ∧
    alert_tuple_count (check_all_geofences testMath c4_db sample_device 50 50)
      sample_device.id hr_zone.id AlertType.geofence_exit = 1 := by
  refine ⟨rfl, rfl, List.Mem.head _, ?_⟩
  norm_num [alert_tuple_count, check_all_geofences, geofence_zone_query,
    zone_alerts, check_point_in_geofence, point_in_polygon, closing_pairs,
    has_unresolved_alert, exit_alert, c4_db, hr_zone, sample_device,
    square_ring, truthy_str]

/-- C3: for every selected zone with distinct zone ids, a triggering
location (outside with `alertOnExit` for exit, inside with `alertOnEnter`
for entry) emits no alert for the (device, zone, type) tuple when an
unresolved alert for that tuple already exists, and emits exactly one —
with severity HIGH for exit and MEDIUM for entry — when none exists. -/
theorem C3_alert_dedup {α : Type} [LinearOrderedField α] (M : MathFns α)
    (db : DB α) (device : Device α) (lat lon : α) (g : Geofence α)
    (hg : g ∈ geofence_zone_query db device)
    (hnd : ((geofence_zone_query db device).map (fun z => z.id)).Nodup) :
    (g.alert_on_exit = true → (check_point_in_geofence M g lat lon).1 = false →
      (has_unresolved_alert db device.id g.id AlertType.geofence_exit = true →
        alert_tuple_count (check_all_geofences M db device lat lon) device.id g.id
          AlertType.geofence_exit = 0) ∧
      (has_unresolved_alert db device.id g.id AlertType.geofence_exit = false →
        alert_tuple_count (check_all_geofences M db device lat lon) device.id g.id
          AlertType.geofence_exit = 1 ∧
        alert_tuple_sev_count (check_all_geofences M db device lat lon) device.id g.id
          AlertType.geofence_exit AlertSeverity.high = 1)) ∧
    (g.alert_on_enter = true → (check_point_in_geofence M g lat lon).1 = true →
      (has_unresolved_alert db device.id g.id AlertType.geofence_enter = true →
        alert_tuple_count (check_all_geofences M db device lat lon) device.id g.id
          AlertType.geofence_enter = 0) ∧
      (has_unresolved_alert db device.id g.id AlertType.geofence_enter = false →
        alert_tuple_count (check_all_geofences M db device lat lon) device.id g.id
          AlertType.geofence_enter = 1 ∧
        alert_tuple_sev_count (check_all_geofences M db device lat lon) device.id g.id
          AlertType.geofence_enter AlertSeverity.medium = 1)) := by
  have hf : ∀ z ∈ geofence_zone_query db device,
      ∀ a ∈ zone_alerts M db device lat lon z, a.geofence_id = some z.id :=
    fun z _ a ha => (zone_alerts_mem M db device lat lon z a ha).2
  have key : ∀ p : Alert α → Bool, (∀ a, p a = true → a.geofence_id = some g.id) →
      ((check_all_geofences M db device lat lon).filter p).length =
        ((zone_alerts M db device lat lon g).filter p).length :=
    fun p hp => filter_flatMap_zone _ _ p g hg hnd hf hp
  refine ⟨fun hx hin => ⟨fun hdup => ?_, fun hdup => ⟨?_, ?_⟩⟩,
          fun hx hin => ⟨fun hdup => ?_, fun hdup => ⟨?_, ?_⟩⟩⟩
  all_goals simp only [alert_tuple_count, alert_tuple_sev_count]
  all_goals rw [key _ (fun a ha => (of_decide_eq_true ha).2.1)]
  all_goals simp [zone_alerts, hx, hin, hdup, exit_alert, enter_alert]

/-- Witness for C3: with no unresolved alerts in the store, evaluating an
outside point against the exit-alerting test zone creates exactly one
HIGH exit alert for the tuple. -/
theorem C3_witness :
    alert_tuple_count (check_all_geofences testMath c4_db sample_device 50 50)
      sample_device.id hr_zone.id AlertType.geofence_exit = 1 ∧
    alert_tuple_sev_count (check_all_geofences testMath c4_db sample_device 50 50)
      sample_device.id hr_zone.id AlertType.geofence_exit AlertSeverity.high = 1 := by
  have hin : (check_point_in_geofence testMath hr_zone 50 50).1 = false := by
    norm_num [check_point_in_geofence, point_in_polygon, closing_pairs, hr_zone,
      square_ring]
  exact ((C3_alert_dedup testMath c4_db sample_device 50 50 hr_zone
    (List.Mem.head _) (by decide)).1 rfl hin).2 rfl

/-- Helper: the drained batch is the sorted pending selection, marked. -/
theorem drain_fst {α : Type} [LinearOrderedField α] (db : DB α) (d m t : Nat) :
    (drain_pending db d m t).1 = ((pending_sorted db d).take m).map (mark_sent t) :=
  rfl

/-- Helper: the stored command table after a drain. -/
theorem drain_snd {α : Type} [LinearOrderedField α] (db : DB α) (d m t : Nat) :
    (drain_pending db d m t).2.commands = db.commands.map (fun c =>
      if (((pending_sorted db d).take m).map (fun x => x.id)).contains c.id then
        mark_sent t c
      else c) :=
  rfl

/-- Helper: marking preserves command ids. -/
theorem drain_ids {α : Type} [LinearOrderedField α] (db : DB α) (d m t : Nat) :
    (drain_pending db d m t).1.map (fun x => x.id) =
      ((pending_sorted db d).take m).map (fun x => x.id) := by
  rw [drain_fst, List.map_map]
  rfl

/-- Helper: the sorted pending selection only contains the device's
PENDING commands. -/
theorem pending_sorted_mem {α : Type} [LinearOrderedField α] (db : DB α) (d : Nat) :
    ∀ c ∈ pending_sorted db d,
      c ∈ db.commands ∧ c.device_id = d ∧ c.status = CommandStatus.pending := by
  intro c hc
  unfold pending_sorted at hc
  have h1 := (List.mergeSort_perm _ created_le).mem_iff.mp hc
  have h2 := List.mem_filter.mp h1
  exact ⟨h2.1, (of_decide_eq_true h2.2).1, (of_decide_eq_true h2.2).2⟩

/-- Helper: every drained command is the marked copy of a stored PENDING
command of the device. -/
theorem drain_mem_src {α : Type} [LinearOrderedField α] (db : DB α) (d m t : Nat) :
    ∀ c ∈ (drain_pending db d m t).1,
      ∃ c0 ∈ db.commands, c0.device_id = d ∧ c0.status = CommandStatus.pending ∧
        c0.id = c.id ∧ c = mark_sent t c0 := by
  intro c hc
  rw [drain_fst] at hc
  rcases List.mem_map.mp hc with ⟨c0, hc0, hceq⟩
  have hmem := pending_sorted_mem db d c0 (List.Sublist.mem hc0 (List.take_sublist _ _))
  refine ⟨c0, hmem.1, hmem.2.1, hmem.2.2, ?_, hceq.symm⟩
  rw [← hceq]
  rfl

/-- Helper: after a drain, every stored command whose id was drained is
SENT with the drain's timestamp. -/
theorem drain_marked {α : Type} [LinearOrderedField α] (db : DB α) (d m t : Nat) :
    ∀ c ∈ (drain_pending db d m t).2.commands,
      c.id ∈ (drain_pending db d m t).1.map (fun x => x.id) →
      c.status = CommandStatus.sent ∧ c.sent_at = some t := by
  intro c hc hid
  rw [drain_ids] at hid
  rw [drain_snd] at hc
  rcases List.mem_map.mp hc with ⟨c0, _, hceq⟩
  by_cases hcon : (((pending_sorted db d).take m).map (fun x => x.id)).contains c0.id = true
  · rw [if_pos hcon] at hceq
    rw [← hceq]
    exact ⟨rfl, rfl⟩
  · rw [if_neg hcon] at hceq
    subst hceq
    exact absurd (List.elem_iff.mpr hid) hcon

/-- Helper: sequential drains return disjoint id sets. -/
theorem drain_twice_disjoint {α : Type} [LinearOrderedField α] (db : DB α)
    (d m t m2 t2 : Nat) :
    ∀ i ∈ (drain_pending db d m t).1.map (fun x => x.id),
      i ∉ (drain_pending (drain_pending db d m t).2 d m2 t2).1.map (fun x => x.id) := by
  intro i hi hi2
  rcases List.mem_map.mp hi2 with ⟨c, hc, hcid⟩
  rcases drain_mem_src _ d m2 t2 c hc with ⟨c0, hc0mem, _, hc0p, hc0id, _⟩
  have hsent := drain_marked db d m t c0 hc0mem (by rw [hc0id, hcid]; exact hi)
  rw [hc0p] at hsent
  cases hsent.1

/-- C5: a drain returns at most `maxBatch` commands in creation-time
order (oldest first), each one a device-owned command that was PENDING
and is returned and stored as SENT with a non-null `sentAt`; and under
sequential use a second drain never returns an id the first one
returned.  The ping path invokes this drain with `maxBatch = 5`
(see `agent_ping`). -/
theorem C5_drain_fifo {α : Type} [LinearOrderedField α] (db : DB α)
    (deviceId maxBatch now : Nat) :
    (drain_pending db deviceId maxBatch now).1.length ≤ maxBatch ∧
    (drain_pending db deviceId maxBatch now).1.Pairwise
      (fun c1 c2 => c1.created_at ≤ c2.created_at) ∧
    (∀ c ∈ (drain_pending db deviceId maxBatch now).1,
      c.status = CommandStatus.sent ∧ c.sent_at = some now ∧
      ∃ c0 ∈ db.commands, c0.device_id = deviceId ∧
        c0.status = CommandStatus.pending ∧ c0.id = c.id ∧ c = mark_sent now c0) ∧
    (∀ c ∈ (drain_pending db deviceId maxBatch now).2.commands,
      c.id ∈ (drain_pending db deviceId maxBatch now).1.map (fun x => x.id) →
      c.status = CommandStatus.sent ∧ c.sent_at = some now) ∧
    (∀ maxBatch2 now2 : Nat,
      ∀ i ∈ (drain_pending db deviceId maxBatch now).1.map (fun x => x.id),
        i ∉ (drain_pending (drain_pending db deviceId maxBatch now).2 deviceId
          maxBatch2 now2).1.map (fun x => x.id)) := by
  refine ⟨?_, ?_, ?_, drain_marked db deviceId maxBatch now,
    fun m2 t2 => drain_twice_disjoint db deviceId maxBatch now m2 t2⟩
  · rw [drain_fst, List.length_map]
    exact List.length_take_le _ _
  · rw [drain_fst, List.pairwise_map]
    have htrans : ∀ a b c : RemoteCommand, created_le a b = true →
        created_le b c = true → created_le a c = true := by
      intro a b c hab hbc
      simp only [created_le, decide_eq_true_eq] at hab hbc ⊢
      omega
    have htot : ∀ a b : RemoteCommand, (created_le a b || created_le b a) = true := by
      intro a b
      simp only [created_le, Bool.or_eq_true, decide_eq_true_eq]
      omega
    have hsorted := List.sorted_mergeSort htrans htot
      (db.commands.filter (fun c =>
        decide (c.device_id = deviceId ∧ c.status = CommandStatus.pending)))
    have hpair : ((pending_sorted db deviceId).take maxBatch).Pairwise
        (fun a b => created_le a b = true) :=
      List.Pairwise.sublist (List.take_sublist _ _) hsorted
    exact hpair.imp (fun h => by
      simpa only [created_le, decide_eq_true_eq] using h)
  · intro c hc
    rcases drain_mem_src db deviceId maxBatch now c hc with
      ⟨c0, hc0mem, hdev, hp, hid, hceq⟩
    subst hceq
    exact ⟨rfl, rfl, c0, hc0mem, hdev, hp, hid, rfl⟩

/-- Witness for C5 on the two-command test store. -/
theorem C5_witness :
    (drain_pending c5_db 7 5 100).1.length ≤ 5 :=
  (C5_drain_fifo c5_db 7 5 100).1

/-- Helper: replacing the row found by `find?` with one that still
matches the predicate, keyed on a unique id, keeps it the first match. -/
theorem find?_update_by_id {α : Type} (l : List (Device α)) (p : Device α → Bool)
    (d u : Device α) (hd : l.find? p = some d)
    (hnd : (l.map (fun x => x.id)).Nodup)
    (hpu : p u = true) (hid : u.id = d.id) :
    (l.map (fun x => if x.id = d.id then u else x)).find? p = some u := by
  induction l with
  | nil => cases hd
  | cons a t ih =>
    rw [List.map_cons, List.nodup_cons] at hnd
    rw [List.find?_cons] at hd
    rw [List.map_cons, List.find?_cons]
    by_cases hpa : p a = true
    · rw [hpa] at hd
      injection hd with had
      subst had
      rw [if_pos rfl, hpu]
    · have hpa2 : p a = false := Bool.not_eq_true _ ▸ eq_false_of_ne_true hpa
      rw [hpa2] at hd
      have hmem : d ∈ t := List.mem_of_find?_eq_some hd
      have hne : ¬a.id = d.id := by
        intro he
        exact hnd.1 (he ▸ List.mem_map_of_mem (fun x => x.id) hmem)
      rw [if_neg hne, hpa2]
      exact ih hd hnd.2

/-- Helper: registration refuses with 400 once both flags are set. -/
theorem register_agent_already {α : Type} [LinearOrderedField α] (db : DB α)
    (reg : DeviceRegister) (now newId : Nat) (d : Device α)
    (hfind : db.devices.find? (fun x => decide (x.serial_number = reg.serial_number)) = some d)
    (hr : d.is_registered = true) (hi : d.agent_installed = true) :
    register_agent db reg now newId = Except.error ApiError.bad_request := by
  unfold register_agent
  rw [hfind]
  simp [hr, hi]

/-- Helper: registration of an existing, not-fully-registered device
updates it in place and issues a token. -/
theorem register_agent_update_eq {α : Type} [LinearOrderedField α] (db : DB α)
    (reg : DeviceRegister) (now newId : Nat) (d : Device α)
    (hfind : db.devices.find? (fun x => decide (x.serial_number = reg.serial_number)) = some d)
    (hnot : ¬(d.is_registered = true ∧ d.agent_installed = true)) :
    register_agent db reg now newId = Except.ok
      ({ db with devices := db.devices.map (fun x =>
          if x.id = d.id then register_update d reg now else x) },
        { device_id := d.id, agent_token := create_agent_token d.id now }) := by
  unfold register_agent
  rw [hfind]
  simp only [Bool.and_eq_true]
  rw [if_neg hnot]

/-- Helper: registration with an unknown serial number auto-creates and
registers a device and issues a token. -/
theorem register_agent_fresh_eq {α : Type} [LinearOrderedField α] (db : DB α)
    (reg : DeviceRegister) (now newId : Nat)
    (hfind : db.devices.find? (fun x => decide (x.serial_number = reg.serial_number)) = none) :
    register_agent db reg now newId = Except.ok
      ({ db with devices := db.devices ++ [register_update (auto_device reg newId) reg now] },
        { device_id := newId, agent_token := create_agent_token newId now }) := by
  unfold register_agent
  rw [hfind]
  rfl

/-- Helper: the registration update never changes the serial number. -/
theorem register_update_serial {α : Type} [LinearOrderedField α] (d : Device α)
    (reg : DeviceRegister) (now : Nat) :
    (register_update d reg now).serial_number = d.serial_number :=
  rfl

/-- Helper: after any successful registration, looking the serial number
up again finds a device with both flags set. -/
theorem register_agent_success_find {α : Type} [LinearOrderedField α] (db : DB α)
    (reg : DeviceRegister) (now newId : Nat)
    (hnd : (db.devices.map (fun x => x.id)).Nodup) :
    ∀ db2 resp, register_agent db reg now newId = Except.ok (db2, resp) →
      ∃ u, db2.devices.find? (fun x => decide (x.serial_number = reg.serial_number)) = some u ∧
        u.is_registered = true ∧ u.agent_installed = true := by
  intro db2 resp hok
  cases hfind : db.devices.find? (fun x => decide (x.serial_number = reg.serial_number)) with
  | some d =>
    by_cases hflags : d.is_registered = true ∧ d.agent_installed = true
    · rw [register_agent_already db reg now newId d hfind hflags.1 hflags.2] at hok
      cases hok
    · rw [register_agent_update_eq db reg now newId d hfind hflags] at hok
      injection hok with hpair
      have hdb2 : db2 = { db with devices := db.devices.map (fun x =>
          if x.id = d.id then register_update d reg now else x) } :=
        (congrArg Prod.fst hpair).symm
      subst hdb2
      refine ⟨register_update d reg now, ?_, rfl, rfl⟩
      have hpd := @List.find?_some _ (fun x => decide (x.serial_number = reg.serial_number))
        d db.devices hfind
      exact find?_update_by_id db.devices _ d (register_update d reg now) hfind hnd hpd rfl
  | none =>
    rw [register_agent_fresh_eq db reg now newId hfind] at hok
    injection hok with hpair
    have hdb2 : db2 = { db with devices :=
        db.devices ++ [register_update (auto_device reg newId) reg now] } :=
      (congrArg Prod.fst hpair).symm
    subst hdb2
    refine ⟨register_update (auto_device reg newId) reg now, ?_, rfl, rfl⟩
    show (db.devices ++ [register_update (auto_device reg newId) reg now]).find? _ = _
    rw [List.find?_append, hfind]
    simp only [Option.none_or, List.find?_cons]
    have : decide ((register_update (auto_device reg newId : Device α) reg now).serial_number =
        reg.serial_number) = true := by
      exact decide_eq_true rfl
    rw [this]

/-- C9: registration is an upsert keyed on serial number — refusing with
a 400 exactly when the found device already has both `is_registered` and
`agent_installed` set, auto-creating the device when the serial number is
unknown, otherwise updating it and issuing a token — and every successful
registration sets both flags, so a repeat call for the same serial number
fails with the 400 and issues no token. -/
theorem C9_register_idempotent {α : Type} [LinearOrderedField α] (db : DB α)
    (reg : DeviceRegister) (now newId : Nat)
    (hnd : (db.devices.map (fun x => x.id)).Nodup) :
    (∀ d, db.devices.find? (fun x => decide (x.serial_number = reg.serial_number)) = some d →
      d.is_registered = true → d.agent_installed = true →
      register_agent db reg now newId = Except.error ApiError.bad_request) ∧
    (∀ d, db.devices.find? (fun x => decide (x.serial_number = reg.serial_number)) = some d →
      ¬(d.is_registered = true ∧ d.agent_installed = true) →
      register_agent db reg now newId = Except.ok
        ({ db with devices := db.devices.map (fun x =>
            if x.id = d.id then register_update d reg now else x) },
          { device_id := d.id, agent_token := create_agent_token d.id now })) ∧
    (db.devices.find? (fun x => decide (x.serial_number = reg.serial_number)) = none →
      register_agent db reg now newId = Except.ok
        ({ db with devices := db.devices ++ [register_update (auto_device reg newId) reg now] },
          { device_id := newId, agent_token := create_agent_token newId now })) ∧
    (∀ d : Device α, (register_update d reg now).is_registered = true ∧
      (register_update d reg now).agent_installed = true) ∧
    (∀ db2 resp, register_agent db reg now newId = Except.ok (db2, resp) →
      ∀ now2 newId2, register_agent db2 reg now2 newId2 = Except.error ApiError.bad_request) := by
  refine ⟨fun d hfind hr hi => register_agent_already db reg now newId d hfind hr hi,
    fun d hfind hnot => register_agent_update_eq db reg now newId d hfind hnot,
    fun hfind => register_agent_fresh_eq db reg now newId hfind,
    fun d => ⟨rfl, rfl⟩,
    fun db2 resp hok now2 newId2 => ?_⟩
  rcases register_agent_success_find db reg now newId hnd db2 resp hok with ⟨u, hu, hur, hui⟩
  exact register_agent_already db2 reg now2 newId2 u hu hur hui

/-- Witness for C9: registering a fresh serial number succeeds, and a
repeat registration for it fails with the 400 client error. -/
theorem C9_witness :
    register_agent c9_db c9_reg 10 1 = Except.ok
      ({ c9_db with devices := [] ++ [register_update (auto_device c9_reg 1) c9_reg 10] },
        { device_id := 1, agent_token := create_agent_token 1 10 }) ∧
    (∀ now2 newId2 : Nat, register_agent
      { c9_db with devices := [] ++ [register_update (auto_device c9_reg 1) c9_reg 10] }
      c9_reg now2 newId2 = Except.error ApiError.bad_request) := by
  have h := C9_register_idempotent c9_db c9_reg 10 1 (by simp [c9_db])
  have h3 := h.2.2.1 rfl
  exact ⟨h3, fun now2 newId2 => h.2.2.2.2 _ _ h3 now2 newId2⟩

/-- C2 (amended): an exception raised during steps 3–4 (status update,
location persistence, geofence evaluation) occurs before any commit and
rolls the whole ping back — the committed store is exactly the original;
but an exception raised during the command drain occurs after the
handler's first commit, so the failed ping leaves the status, the
LocationSample and the alerts committed while the command queue is
untouched — partial state a device can observe. -/
theorem C2_ping_rollback {α : Type} [LinearOrderedField α] (M : MathFns α) (db : DB α)
    (device_id : Nat) (ping : DeviceAgentPing α) (now : Nat) (device : Device α)
    (hfind : db.devices.find? (fun d => decide (d.id = device_id)) = some device) :
    agent_ping M db device_id ping now PingFailure.before_first_commit =
      (Except.error ApiError.internal, db) ∧
    (∀ lat lon, ping.latitude = some lat → ping.longitude = some lon →
      (agent_ping M db device_id ping now PingFailure.during_drain).1 =
        Except.error ApiError.internal ∧
      (agent_ping M db device_id ping now PingFailure.during_drain).2.location_history =
        db.location_history ++ [ping_location_sample device ping lat lon] ∧
      (agent_ping M db device_id ping now PingFailure.during_drain).2.commands =
        db.commands) := by
  constructor
  · unfold agent_ping
    rw [hfind]
  · intro lat lon hlat hlon
    unfold agent_ping
    rw [hfind, hlat, hlon]
    exact ⟨rfl, rfl, rfl⟩

/-- Witness for C2 (amended): a failure before the first commit leaves
the concrete test store untouched. -/
theorem C2_witness :
    agent_ping testMath c2_db 7 c2_ping 100 PingFailure.before_first_commit =
      (Except.error ApiError.internal, c2_db) :=
  (C2_ping_rollback testMath c2_db 7 c2_ping 100 sample_device rfl).1

/-- Counterexample to C2 as stated: a ping that fails during the command
drain still leaves its LocationSample committed while the pending command
was never transitioned — observable partial state after a failed ping. -/
theorem C2_counterexample :
    (agent_ping testMath c2_db 7 c2_ping 100 PingFailure.during_drain).1 =
      Except.error ApiError.internal ∧
    (agent_ping testMath c2_db 7 c2_ping 100
        PingFailure.during_drain).2.location_history.length = 1 ∧
    c2_db.location_history.length = 0 ∧
    (agent_ping testMath c2_db 7 c2_ping 100 PingFailure.during_drain).2.commands =
      [c1_command] ∧
    c1_command.status = CommandStatus.pending ∧
    c1_command.sent_at = none :=
  ⟨rfl, rfl, rfl, rfl, rfl, rfl⟩

/-- C10: a ping carrying at most one of the two coordinates performs no
location processing at all — no LocationSample is appended, the alerts
table is untouched (geofence evaluation is not reached), and the device's
cached coordinate and location metadata are unchanged — while the
status/last-seen update and the batch-5 command drain still proceed. -/
theorem C10_coordinate_gate {α : Type} [LinearOrderedField α] (M : MathFns α)
    (db : DB α) (device_id : Nat) (ping : DeviceAgentPing α) (now : Nat)
    (device : Device α)
    (hfind : db.devices.find? (fun d => decide (d.id = device_id)) = some device)
    (hmiss : ping.latitude = none ∨ ping.longitude = none) :
    agent_ping M db device_id ping now PingFailure.nofail =
      (Except.ok (ping_build_response (merge_legacy_commands
          (ping_status_update device ping now)
          ((drain_pending (update_device db (ping_status_update device ping now))
            device.id 5 now).1.map command_info_of))),
        (drain_pending (update_device db (ping_status_update device ping now))
          device.id 5 now).2) ∧
    (agent_ping M db device_id ping now PingFailure.nofail).2.location_history =
      db.location_history ∧
    (agent_ping M db device_id ping now PingFailure.nofail).2.alerts = db.alerts ∧
    (ping_status_update device ping now).last_latitude = device.last_latitude ∧
    (ping_status_update device ping now).last_longitude = device.last_longitude ∧
    (ping_status_update device ping now).last_location_accuracy =
      device.last_location_accuracy ∧
    (ping_status_update device ping now).last_location_source =
      device.last_location_source ∧
    (ping_status_update device ping now).status = DeviceStatus.online ∧
    (ping_status_update device ping now).last_seen = some now := by
  have key : agent_ping M db device_id ping now PingFailure.nofail =
      (Except.ok (ping_build_response (merge_legacy_commands
          (ping_status_update device ping now)
          ((drain_pending (update_device db (ping_status_update device ping now))
            device.id 5 now).1.map command_info_of))),
        (drain_pending (update_device db (ping_status_update device ping now))
          device.id 5 now).2) := by
    unfold agent_ping
    rw [hfind]
    rcases hmiss with h | h
    · rw [h]
    · rw [h]
      cases ping.latitude with
      | none => rfl
      | some lat => rfl
  refine ⟨key, ?_, ?_, rfl, rfl, rfl, rfl, rfl, rfl⟩
  · rw [key]
    rfl
  · rw [key]
    rfl

/-- Witness for C10: the latitude-less test ping stores no location. -/
theorem C10_witness :
    (agent_ping testMath c2_db 7 c10_ping 100 PingFailure.nofail).2.location_history =
      c2_db.location_history :=
  (C10_coordinate_gate testMath c2_db 7 c10_ping 100 sample_device rfl (Or.inl rfl)).2.1

end Trace
